import Mathlib

/-!
Verification of the gesture-interpretation and interaction engine of the
`trip` repository (src/main.js): a shallow embedding of the gesture
classifier, the grab/drag controller, the mode manager and the per-frame
orbital animation, with theorems settling the specification claims.

Modelling conventions:
* Landmark coordinates and all scene scalars are embedded as rationals
  (JavaScript numbers are IEEE floats, a subset of the rationals); the
  comparisons the source performs are exact rational comparisons here.
* `Math.hypot(dx,dy,dz) < c` for `c > 0` is embedded as
  `dx^2 + dy^2 + dz^2 < c^2`; the equivalence with the Euclidean
  (square-root) distance is proved where the claims mention it.
* The scene-graph queries the source obtains from three.js (the camera ray
  for an NDC point, the nearest raycast hit, world-to-local conversion,
  an object's world-space position) are external collaborators per the
  design document; they enter the model as explicit function parameters
  bundled in `Env` / stored fields (`worldZ`), never as stubs of code that
  lives in src/.
* `ensureModeObjects` runs before the first detection frame (init calls it
  before `detectHands`), so the five lazily-created worlds are modelled as
  always present.
-/

/-- One hand landmark: normalized (x, y, z) coordinates. -/
structure Pt where
  x : ℚ
  y : ℚ
  z : ℚ
  deriving DecidableEq, Repr

/-- A detected hand: MediaPipe's landmark array; an entry can be absent
(`undefined` in JS), which the source checks with falsy tests. -/
abbrev Hand := List (Option Pt)

/-- `landmarks[i]` in JS: `undefined` (here `none`) when out of range or absent. -/
def lmAt (l : Hand) (i : Nat) : Option Pt :=
  (l.get? i).getD none

/-- Squared 3-D distance between two landmarks:
`(a.x-b.x)^2 + (a.y-b.y)^2 + (a.z-b.z)^2`.
`Math.hypot` in the source is the square root of this. -/
def distSq (a b : Pt) : ℚ :=
  (a.x - b.x) ^ 2 + (a.y - b.y) ^ 2 + (a.z - b.z) ^ 2

/-- `isPinch` (main.js): thumb tip is landmark 4, index tip landmark 8;
false when either is missing; otherwise true iff the 3-D distance is
below 0.05 (embedded as squared distance below 0.05^2 = 1/400). -/
def isPinch (l : Hand) : Bool :=
  match lmAt l 4, lmAt l 8 with
  | some thumb, some indexTip => decide (distSq thumb indexTip < 1 / 400)
  | _, _ => false

/-- The four (fingertip, MCP joint) landmark index pairs `isFist` checks. -/
def fistPairs : List (Nat × Nat) := [(8, 5), (12, 9), (16, 13), (20, 17)]

/-- `isFist` (main.js): counts finger pairs whose tip-to-MCP 3-D distance is
below 0.13 (squared: 169/10000), skipping pairs with a missing landmark,
and returns true iff at least 3 of the 4 are curled. -/
def isFist (l : Hand) : Bool :=
  decide (3 ≤ fistPairs.foldl (fun curled pr =>
    match lmAt l pr.1, lmAt l pr.2 with
    | some tip, some mcp => if distSq tip mcp < 169 / 10000 then curled + 1 else curled
    | _, _ => curled) 0)

/-- `getPinchNdc` (main.js): midpoint of thumb tip and index tip, mirrored
horizontally, converted to normalized device coordinates in [-1,1]. -/
def getPinchNdc (l : Hand) : Option (ℚ × ℚ) :=
  match lmAt l 4, lmAt l 8 with
  | some thumb, some indexTip =>
    let pinchX := (thumb.x + indexTip.x) * (1 / 2)
    let pinchY := (thumb.y + indexTip.y) * (1 / 2)
    let mirroredX := 1 - pinchX
    some (mirroredX * 2 - 1, -(pinchY * 2 - 1))
  | _, _ => none

/-- A world-space vector/point. -/
structure Vec3 where
  x : ℚ
  y : ℚ
  z : ℚ
  deriving DecidableEq, Repr

/-- A camera ray (origin and direction), as produced by
`raycaster.setFromCamera` — an external three.js query per the design. -/
structure Ray where
  origin : Vec3
  dir : Vec3
  deriving DecidableEq, Repr

/-- `THREE.Ray.intersectPlane` specialised to the plane with normal (0,0,1)
and constant `-planeZ` (exactly the plane built in
`worldPointFromNdcOnZPlane`): parallel ray off the plane gives no
intersection; a hit behind the origin (t < 0) also gives none. -/
def rayIntersectZPlane (r : Ray) (planeZ : ℚ) : Option Vec3 :=
  if r.dir.z = 0 then
    if r.origin.z - planeZ = 0 then some r.origin else none
  else
    let t := -(r.origin.z + -planeZ) / r.dir.z
    if 0 ≤ t then
      some ⟨r.origin.x + t * r.dir.x, r.origin.y + t * r.dir.y, r.origin.z + t * r.dir.z⟩
    else none

/-- `worldPointFromNdcOnZPlane` (main.js): casts the camera ray through the
NDC point (the ray construction `rayOf` is the external camera query) and
intersects it with the fixed-depth Z plane. -/
def worldPointFromNdcOnZPlane (rayOf : ℚ × ℚ → Ray) (ndcX ndcY planeZ : ℚ) : Option Vec3 :=
  rayIntersectZPlane (rayOf (ndcX, ndcY)) planeZ

/-- In-place update of the i-th element of a list (JS mutation of one array
entry); out-of-range indices leave the list unchanged. -/
def modifyAt (f : α → α) : Nat → List α → List α
  | _, [] => []
  | 0, a :: as => f a :: as
  | n + 1, a :: as => a :: modifyAt f n as

theorem length_modifyAt (f : α → α) : ∀ (n : Nat) (l : List α),
    (modifyAt f n l).length = l.length := by
  intro n l
  induction l generalizing n with
  | nil => cases n <;> simp [modifyAt]
  | cons a as ih =>
    cases n with
    | zero => simp [modifyAt]
    | succ m => simp [modifyAt, ih m]

theorem get?_modifyAt (f : α → α) : ∀ (n : Nat) (l : List α) (j : Nat),
    (modifyAt f n l).get? j = if j = n then (l.get? j).map f else l.get? j := by
  intro n l
  induction l generalizing n with
  | nil => intro j; cases n <;> simp [modifyAt]
  | cons a as ih =>
    intro j
    cases n with
    | zero => cases j <;> simp [modifyAt]
    | succ m =>
      cases j with
      | zero => simp [modifyAt]
      | succ k => simpa [modifyAt] using ih m k

/-- Which world the grabbed item lives in (`grabState.kind` values
`'planet'` / `'butterfly'`). -/
inductive GrabKind where
  | planet
  | butterfly
  deriving DecidableEq, Repr

/-- The module-level `grabState` object: the grabbed item is a reference
into one of the world object arrays, embedded as (world, index); `kind` is
the separate string tag the source keeps next to it. -/
structure GrabState where
  item : Option (GrabKind × Nat)
  kind : Option GrabKind
  pinchActive : Bool
  grabPlaneZ : ℚ
  deriving DecidableEq, Repr

/-- `galaxyControl` (main.js). -/
structure GalaxyControl where
  targetScale : ℚ
  currentScale : ℚ
  spinBoost : ℚ
  depthSpeed : ℚ
  colorShiftActive : Bool
  colorHue : ℚ
  deriving DecidableEq, Repr

/-- `flowerControl` (main.js). -/
structure FlowerControl where
  targetScale : ℚ
  currentScale : ℚ
  spinBoost : ℚ
  variantIndex : Nat
  openPalmHeld : Bool
  lastVariantSwitchMs : ℚ
  deriving DecidableEq, Repr

/-- `companionControl` (main.js). -/
structure CompanionControl where
  tiltX : ℚ
  tiltY : ℚ
  motionSpeed : ℚ
  deriving DecidableEq, Repr

/-- `skeletonControl` (main.js). -/
structure SkeletonControl where
  targetScale : ℚ
  currentScale : ℚ
  danceActive : Bool
  spinBoost : ℚ
  deriving DecidableEq, Repr

/-- One planet record of `solarSystem.userData.planets`: `meshPos` is
`mesh.position` (local to its orbit pivot), `pivotRotY` is
`orbitPivot.rotation.y`, and `worldZ` is the mesh's current world-space Z
(the value `getWorldPosition` reads back from the scene graph). -/
structure Planet where
  speed : ℚ
  angle : ℚ
  pivotRotY : ℚ
  isGrabbed : Bool
  meshPos : Vec3
  worldZ : ℚ
  deriving DecidableEq, Repr

/-- One butterfly record of `butterflySystem.userData.butterflies`:
`pivotPos` is `pivot.position` (local to the butterfly system group) and
`worldZ` the pivot's world-space Z. The wing/flap phase accumulators are
render-only sinusoids no claim mentions and are not tracked. -/
structure Butterfly where
  speed : ℚ
  angle : ℚ
  radius : ℚ
  baseY : ℚ
  bobPhase : ℚ
  isGrabbed : Bool
  pivotPos : Vec3
  worldZ : ℚ
  deriving DecidableEq, Repr

/-- The module-level mutable state of main.js that the claims range over:
the active mode string, the two grabbable-object arrays, the grab state,
the four control-state objects, the companion system rotations and the
per-world visibility flags. -/
structure SysState where
  activeMode : String
  planets : List Planet
  butterflies : List Butterfly
  grab : GrabState
  galaxyControl : GalaxyControl
  flowerControl : FlowerControl
  companionControl : CompanionControl
  skeletonControl : SkeletonControl
  solarRotX : ℚ
  solarRotY : ℚ
  bflyRotX : ℚ
  bflyRotY : ℚ
  galaxyVisible : Bool
  solarVisible : Bool
  flowerVisible : Bool
  butterflyVisible : Bool
  skeletonVisible : Bool
  deriving DecidableEq, Repr

/-- The external three.js queries the controller consumes (design §6):
the camera ray for an NDC point, the nearest raycast hit (as an index into
the candidate mesh list the caller built), and world-to-local coordinate
conversion for a planet's orbit pivot / the butterfly system group. -/
structure Env where
  hitOf : ℚ × ℚ → Option Nat
  rayOf : ℚ × ℚ → Ray
  toLocalPlanet : Nat → Vec3 → Vec3
  toLocalButterfly : Vec3 → Vec3

/-- `dropGrabbedItem` (main.js): clear the grabbed object's `isGrabbed`
flag, then null out `item` and `kind`; no-op when nothing is grabbed. -/
def dropGrabbedItem (st : SysState) : SysState :=
  match st.grab.item with
  | none => st
  | some (GrabKind.planet, i) =>
    { st with
      planets := modifyAt (fun p => { p with isGrabbed := false }) i st.planets,
      grab := { st.grab with item := none, kind := none } }
  | some (GrabKind.butterfly, i) =>
    { st with
      butterflies := modifyAt (fun b => { b with isGrabbed := false }) i st.butterflies,
      grab := { st.grab with item := none, kind := none } }

/-- `tryGrabItem` (main.js): on a pinch rising edge, if nothing is grabbed,
hit-test the active world's candidate meshes (planets in galaxy mode,
butterfly bodies in flower mode, nothing otherwise) with the camera ray
through the pinch NDC point; the nearest hit becomes the grabbed item and
its world-space Z the grab plane depth. -/
def tryGrabItem (env : Env) (l : Hand) (st : SysState) : SysState :=
  match getPinchNdc l with
  | none => st
  | some ndc =>
    if st.grab.item.isSome then st
    else if st.activeMode = "galaxy" then
      match env.hitOf ndc with
      | none => st
      | some i =>
        match st.planets.get? i with
        | none => st
        | some sel =>
          { st with
            planets := modifyAt (fun p => { p with isGrabbed := true }) i st.planets,
            grab := { st.grab with
              item := some (GrabKind.planet, i),
              kind := some GrabKind.planet,
              grabPlaneZ := sel.worldZ } }
    else if st.activeMode = "flower" then
      match env.hitOf ndc with
      | none => st
      | some i =>
        match st.butterflies.get? i with
        | none => st
        | some sel =>
          { st with
            butterflies := modifyAt (fun b => { b with isGrabbed := true }) i st.butterflies,
            grab := { st.grab with
              item := some (GrabKind.butterfly, i),
              kind := some GrabKind.butterfly,
              grabPlaneZ := sel.worldZ } }
    else st

/-- `updateGrabbedItem` (main.js): while grabbed, project the pinch point
onto the fixed-depth grab plane and write the hit point, converted to the
grabbed object's parent space, as its local position; return without
writing when nothing is grabbed, the pinch landmarks are missing, or the
ray does not intersect the plane. -/
def updateGrabbedItem (env : Env) (l : Hand) (st : SysState) : SysState :=
  if st.grab.item.isNone || st.grab.kind.isNone then st
  else
    match getPinchNdc l with
    | none => st
    | some ndc =>
      match worldPointFromNdcOnZPlane env.rayOf ndc.1 ndc.2 st.grab.grabPlaneZ with
      | none => st
      | some w =>
        match st.grab.kind, st.grab.item with
        | some GrabKind.planet, some (GrabKind.planet, i) =>
          { st with planets := modifyAt (fun p => { p with meshPos := env.toLocalPlanet i w }) i st.planets }
        | some GrabKind.butterfly, some (GrabKind.butterfly, i) =>
          { st with butterflies := modifyAt (fun b => { b with pivotPos := env.toLocalButterfly w }) i st.butterflies }
        | _, _ => st

/-- The wrist-driven tilt update at the head of `updateCompanionFromHand`:
skipped when landmark 0 is absent. -/
def companionTilt (l : Hand) (st : SysState) : SysState :=
  match lmAt l 0 with
  | some wrist =>
    { st with companionControl := { st.companionControl with
        tiltY := (1 - wrist.x - 1 / 2) * 2 * (3 / 4),
        tiltX := (wrist.y - 1 / 2) * 2 * (9 / 20) } }
  | none => st

/-- The fist-driven motion-speed update of `updateCompanionFromHand`
(0.04 when fist, else 0.01). -/
def companionMotion (l : Hand) (st : SysState) : SysState :=
  { st with companionControl := { st.companionControl with
      motionSpeed := if isFist l then 1 / 25 else 1 / 100 } }

/-- Write `grabState.pinchActive`. -/
def setPinch (b : Bool) (st : SysState) : SysState :=
  { st with grab := { st.grab with pinchActive := b } }

/-- `updateCompanionFromHand` (main.js), one detection-frame update for the
secondary hand: in skeleton mode, or when the hand is absent, drop any grab
and clear the pinch tracker; otherwise update tilt and motion speed, grab
on a pinch rising edge, drag while pinching, drop on a falling edge, and
record the pinch level for the next frame's edge detection. -/
def updateCompanionFromHand (env : Env) (lm? : Option Hand) (st : SysState) : SysState :=
  if st.activeMode = "skeleton" then
    setPinch false (dropGrabbedItem st)
  else
    match lm? with
    | none => setPinch false (dropGrabbedItem st)
    | some l =>
      let st1 := companionMotion l (companionTilt l st)
      let pinchNow := isPinch l
      let st2 := if pinchNow && !st.grab.pinchActive then tryGrabItem env l st1 else st1
      let st3 := if pinchNow then updateGrabbedItem env l st2 else st2
      let st4 := if !pinchNow && st.grab.pinchActive then dropGrabbedItem st3 else st3
      setPinch pinchNow st4

/-- `setModeVisibility` (main.js): each world is visible iff `visible` is
true and it belongs to the active mode. -/
def setModeVisibility (visible : Bool) (st : SysState) : SysState :=
  { st with
    galaxyVisible := visible && st.activeMode = "galaxy",
    solarVisible := visible && st.activeMode = "galaxy",
    flowerVisible := visible && st.activeMode = "flower",
    butterflyVisible := visible && st.activeMode = "flower",
    skeletonVisible := visible && st.activeMode = "skeleton" }

/-- `switchMode` (main.js): no-op when the requested name equals the active
mode; otherwise set the active mode to the given name (the source performs
no validity check), drop any grab, clear the pinch tracker and the two
discrete-trigger latches, and recompute visibility from primary-hand
presence (`ensureModeObjects` and the status/DOM writes have no state in
this model). -/
def switchMode (mode : String) (handPresent : Bool) (st : SysState) : SysState :=
  if mode = st.activeMode then st
  else
    let st1 := { st with activeMode := mode }
    let st2 := dropGrabbedItem st1
    let st3 := { st2 with
      grab := { st2.grab with pinchActive := false },
      flowerControl := { st2.flowerControl with openPalmHeld := false },
      skeletonControl := { st2.skeletonControl with danceActive := false } }
    setModeVisibility handPresent st3

/-- `animatePlanets` (main.js): when the solar system is visible, ease its
tilt toward the companion control targets and advance each ungrabbed
planet's orbital angle by `speed * motionSpeed`, writing it to the orbit
pivot; grabbed planets are skipped entirely. -/
def animatePlanets (st : SysState) : SysState :=
  if st.solarVisible = false then st
  else
    { st with
      solarRotX := st.solarRotX + (st.companionControl.tiltX - st.solarRotX) * (1 / 10),
      solarRotY := st.solarRotY + (st.companionControl.tiltY - st.solarRotY) * (1 / 10),
      planets := st.planets.map (fun p =>
        if p.isGrabbed then p
        else
          let a := p.angle + p.speed * st.companionControl.motionSpeed
          { p with angle := a, pivotRotY := a }) }

/-- `animateButterflies` (main.js): when the butterfly system is visible,
ease its tilt and advance each ungrabbed butterfly's orbital angle by
`speed * motionSpeed * 0.55`; grabbed butterflies keep their angle and
pivot position (only their render-only wing sinusoids, not tracked here,
keep animating). The ungrabbed pivot position is recomputed from the new
angle through sine/cosine; those transcendental writes are render geometry
no claim constrains and are left untracked, like the wing flap. -/
def animateButterflies (_t : ℚ) (st : SysState) : SysState :=
  if st.butterflyVisible = false then st
  else
    { st with
      bflyRotX := st.bflyRotX + (st.companionControl.tiltX - st.bflyRotX) * (9 / 100),
      bflyRotY := st.bflyRotY + (st.companionControl.tiltY - st.bflyRotY) * (9 / 100),
      butterflies := st.butterflies.map (fun b =>
        if b.isGrabbed then b
        else { b with angle := b.angle + b.speed * st.companionControl.motionSpeed * (11 / 20) }) }

/-- The exponential-approach smoothing step `settle` (main.js): the same
`current += (target - current) * factor` update every smoothed parameter
uses (e.g. `animateGalaxy` with factor 0.14). -/
def settle (value target speed : ℝ) : ℝ :=
  value + (target - value) * speed

/-- Iterating the smoothing step against a constant target. -/
def smoothIter (factor target c0 : ℝ) : Nat → ℝ
  | 0 => c0
  | n + 1 => settle (smoothIter factor target c0 n) target factor

/-- The grabbed-item reference is a valid index into its world's array. -/
def itemInRange (st : SysState) : Prop :=
  match st.grab.item with
  | none => True
  | some (GrabKind.planet, i) => i < st.planets.length
  | some (GrabKind.butterfly, i) => i < st.butterflies.length

/-- The grab-exclusivity invariant: an object's `isGrabbed` flag is set
exactly when `grabState.item` is the reference to that object, and the
reference is in range. -/
def GrabInv (st : SysState) : Prop :=
  (∀ j p, st.planets.get? j = some p →
      (p.isGrabbed = true ↔ st.grab.item = some (GrabKind.planet, j)))
  ∧ (∀ j b, st.butterflies.get? j = some b →
      (b.isGrabbed = true ↔ st.grab.item = some (GrabKind.butterfly, j)))
  ∧ itemInRange st

/-- At most one world object holds `isGrabbed = true`. -/
def AtMostOneGrabbed (st : SysState) : Prop :=
  (∀ i j p q, st.planets.get? i = some p → st.planets.get? j = some q →
      p.isGrabbed = true → q.isGrabbed = true → i = j)
  ∧ (∀ i j b c, st.butterflies.get? i = some b → st.butterflies.get? j = some c →
      b.isGrabbed = true → c.isGrabbed = true → i = j)
  ∧ (∀ i j p b, st.planets.get? i = some p → st.butterflies.get? j = some b →
      p.isGrabbed = true → b.isGrabbed = true → False)

/-- Some world object holds `isGrabbed = true`. -/
def SomeGrabbed (st : SysState) : Prop :=
  (∃ i p, st.planets.get? i = some p ∧ p.isGrabbed = true)
  ∨ (∃ i b, st.butterflies.get? i = some b ∧ b.isGrabbed = true)

/-- The object `grabState.item` references (when any) is itself flagged. -/
def ItemGrabbed (st : SysState) : Prop :=
  ∀ k i, st.grab.item = some (k, i) →
    (k = GrabKind.planet → ∃ p, st.planets.get? i = some p ∧ p.isGrabbed = true)
    ∧ (k = GrabKind.butterfly → ∃ b, st.butterflies.get? i = some b ∧ b.isGrabbed = true)

theorem grabInv_congr {st st' : SysState}
    (hp : st'.planets = st.planets) (hb : st'.butterflies = st.butterflies)
    (hi : st'.grab.item = st.grab.item) (h : GrabInv st) : GrabInv st' := by
  obtain ⟨h1, h2, h3⟩ := h
  refine ⟨?_, ?_, ?_⟩
  · intro j p hj; rw [hp] at hj; rw [hi]; exact h1 j p hj
  · intro j b hj; rw [hb] at hj; rw [hi]; exact h2 j b hj
  · unfold itemInRange at h3 ⊢
    rw [hp, hb, hi]
    exact h3

theorem grabInv_drop {st : SysState} (h : GrabInv st) : GrabInv (dropGrabbedItem st) := by
  obtain ⟨h1, h2, h3⟩ := h
  rcases hitem : st.grab.item with _ | ⟨k, i⟩
  · simpa [dropGrabbedItem, hitem] using ⟨h1, h2, h3⟩
  · cases k
    case planet =>
      simp only [dropGrabbedItem, hitem]
      refine ⟨?_, ?_, trivial⟩
      · intro j p hj
        rw [get?_modifyAt] at hj
        simp only [reduceCtorEq, iff_false]
        by_cases hji : j = i
        · subst hji
          simp only [if_pos rfl] at hj
          rcases Option.map_eq_some'.mp hj with ⟨q, _, hq⟩
          rw [← hq]
          simp
        · rw [if_neg hji] at hj
          have := (h1 j p hj).symm
          rw [hitem] at this
          intro hg
          have hji1 := Option.some.inj (this.mpr hg)
          exact hji (by simpa using (congrArg Prod.snd hji1).symm)
      · intro j b hj
        simp only [reduceCtorEq, iff_false]
        intro hg
        have := (h2 j b hj).mp hg
        rw [hitem] at this
        simp at this
    case butterfly =>
      simp only [dropGrabbedItem, hitem]
      refine ⟨?_, ?_, trivial⟩
      · intro j p hj
        simp only [reduceCtorEq, iff_false]
        intro hg
        have := (h1 j p hj).mp hg
        rw [hitem] at this
        simp at this
      · intro j b hj
        rw [get?_modifyAt] at hj
        simp only [reduceCtorEq, iff_false]
        by_cases hji : j = i
        · subst hji
          simp only [if_pos rfl] at hj
          rcases Option.map_eq_some'.mp hj with ⟨q, _, hq⟩
          rw [← hq]
          simp
        · rw [if_neg hji] at hj
          have := (h2 j b hj).symm
          rw [hitem] at this
          intro hg
          have hji1 := Option.some.inj (this.mpr hg)
          exact hji (by simpa using (congrArg Prod.snd hji1).symm)


theorem grabInv_tryGrab (env : Env) (l : Hand) {st : SysState} (h : GrabInv st) :
    GrabInv (tryGrabItem env l st) := by
  obtain ⟨h1, h2, h3⟩ := h
  unfold tryGrabItem
  split
  · exact ⟨h1, h2, h3⟩
  · split
    · exact ⟨h1, h2, h3⟩
    · next hsome =>
      have hnone : st.grab.item = none := by
        cases hx : st.grab.item with
        | none => rfl
        | some v => rw [hx] at hsome; simp at hsome
      split
      · -- galaxy mode
        split
        · exact ⟨h1, h2, h3⟩
        · next i hi =>
          split
          · exact ⟨h1, h2, h3⟩
          · next sel hsel =>
            refine ⟨?_, ?_, ?_⟩
            · intro j p hj
              dsimp only at hj ⊢
              rw [get?_modifyAt] at hj
              by_cases hji : j = i
              · subst hji
                rw [if_pos rfl] at hj
                rcases Option.map_eq_some'.mp hj with ⟨q, _, hq⟩
                rw [← hq]
                simp
              · rw [if_neg hji] at hj
                have hfree := h1 j p hj
                rw [hnone] at hfree
                simp only [reduceCtorEq, iff_false] at hfree
                constructor
                · intro hg; exact absurd hg hfree
                · intro he
                  exact absurd (Option.some.inj he) (by
                    intro hpair
                    exact hji (congrArg Prod.snd hpair).symm)
            · intro j b hj
              dsimp only at hj ⊢
              have hfree := h2 j b hj
              rw [hnone] at hfree
              simp only [reduceCtorEq, iff_false] at hfree
              simp [hfree]
            · have hi2 : i < st.planets.length := (List.get?_eq_some.mp hsel).1
              unfold itemInRange
              dsimp only
              simpa [length_modifyAt] using hi2
      · -- not galaxy
        split
        · -- flower mode
          split
          · exact ⟨h1, h2, h3⟩
          · next i hi =>
            split
            · exact ⟨h1, h2, h3⟩
            · next sel hsel =>
              refine ⟨?_, ?_, ?_⟩
              · intro j p hj
                dsimp only at hj ⊢
                have hfree := h1 j p hj
                rw [hnone] at hfree
                simp only [reduceCtorEq, iff_false] at hfree
                simp [hfree]
              · intro j b hj
                dsimp only at hj ⊢
                rw [get?_modifyAt] at hj
                by_cases hji : j = i
                · subst hji
                  rw [if_pos rfl] at hj
                  rcases Option.map_eq_some'.mp hj with ⟨q, _, hq⟩
                  rw [← hq]
                  simp
                · rw [if_neg hji] at hj
                  have hfree := h2 j b hj
                  rw [hnone] at hfree
                  simp only [reduceCtorEq, iff_false] at hfree
                  constructor
                  · intro hg; exact absurd hg hfree
                  · intro he
                    exact absurd (Option.some.inj he) (by
                      intro hpair
                      exact hji (congrArg Prod.snd hpair).symm)
              · have hi2 : i < st.butterflies.length := (List.get?_eq_some.mp hsel).1
                unfold itemInRange
                dsimp only
                simpa [length_modifyAt] using hi2
        · exact ⟨h1, h2, h3⟩

theorem grabInv_updateGrabbed (env : Env) (l : Hand) {st : SysState} (h : GrabInv st) :
    GrabInv (updateGrabbedItem env l st) := by
  obtain ⟨h1, h2, h3⟩ := h
  unfold updateGrabbedItem
  split
  · exact ⟨h1, h2, h3⟩
  · split
    · exact ⟨h1, h2, h3⟩
    · next ndc hndc =>
      split
      · exact ⟨h1, h2, h3⟩
      · next w hw =>
        split
        · next i hk hitem =>
          refine ⟨?_, h2, ?_⟩
          · intro j p hj
            dsimp only at hj ⊢
            rw [get?_modifyAt] at hj
            by_cases hji : j = i
            · subst hji
              rw [if_pos rfl] at hj
              rcases Option.map_eq_some'.mp hj with ⟨q, hq0, hq⟩
              rw [← hq]
              simpa using h1 j q hq0
            · rw [if_neg hji] at hj
              exact h1 j p hj
          · unfold itemInRange at h3 ⊢
            dsimp only
            cases hx : st.grab.item with
            | none => trivial
            | some v =>
              rw [hx] at h3
              rcases v with ⟨k, m⟩
              cases k
              · simpa [length_modifyAt] using h3
              · simpa using h3
        · next i hk hitem =>
          refine ⟨h1, ?_, ?_⟩
          · intro j b hj
            dsimp only at hj ⊢
            rw [get?_modifyAt] at hj
            by_cases hji : j = i
            · subst hji
              rw [if_pos rfl] at hj
              rcases Option.map_eq_some'.mp hj with ⟨q, hq0, hq⟩
              rw [← hq]
              simpa using h2 j q hq0
            · rw [if_neg hji] at hj
              exact h2 j b hj
          · unfold itemInRange at h3 ⊢
            dsimp only
            cases hx : st.grab.item with
            | none => trivial
            | some v =>
              rw [hx] at h3
              rcases v with ⟨k, m⟩
              cases k
              · simpa using h3
              · simpa [length_modifyAt] using h3
        · exact ⟨h1, h2, h3⟩

theorem grabInv_setPinch (b : Bool) {st : SysState} (h : GrabInv st) :
    GrabInv (setPinch b st) :=
  grabInv_congr rfl rfl rfl h

theorem grabInv_companionTilt (l : Hand) {st : SysState} (h : GrabInv st) :
    GrabInv (companionTilt l st) := by
  unfold companionTilt
  split
  · exact grabInv_congr rfl rfl rfl h
  · exact h

theorem grabInv_companionMotion (l : Hand) {st : SysState} (h : GrabInv st) :
    GrabInv (companionMotion l st) :=
  grabInv_congr rfl rfl rfl h

theorem grabInv_companion (env : Env) (lm? : Option Hand) {st : SysState} (h : GrabInv st) :
    GrabInv (updateCompanionFromHand env lm? st) := by
  unfold updateCompanionFromHand
  split
  · exact grabInv_setPinch false (grabInv_drop h)
  · match lm? with
    | none => exact grabInv_setPinch false (grabInv_drop h)
    | some l =>
      dsimp only
      apply grabInv_setPinch
      have hst1 : GrabInv (companionMotion l (companionTilt l st)) :=
        grabInv_companionMotion l (grabInv_companionTilt l h)
      have hst2 : GrabInv (if isPinch l && !st.grab.pinchActive
          then tryGrabItem env l (companionMotion l (companionTilt l st))
          else companionMotion l (companionTilt l st)) := by
        split
        · exact grabInv_tryGrab env l hst1
        · exact hst1
      have hst3 : GrabInv (if isPinch l
          then updateGrabbedItem env l (if isPinch l && !st.grab.pinchActive
            then tryGrabItem env l (companionMotion l (companionTilt l st))
            else companionMotion l (companionTilt l st))
          else (if isPinch l && !st.grab.pinchActive
            then tryGrabItem env l (companionMotion l (companionTilt l st))
            else companionMotion l (companionTilt l st))) := by
        split
        · exact grabInv_updateGrabbed env l hst2
        · exact hst2
      split
      · exact grabInv_drop hst3
      · exact hst3

theorem grabInv_setModeVisibility (v : Bool) {st : SysState} (h : GrabInv st) :
    GrabInv (setModeVisibility v st) :=
  grabInv_congr rfl rfl rfl h

theorem grabInv_switch (mode : String) (handPresent : Bool) {st : SysState} (h : GrabInv st) :
    GrabInv (switchMode mode handPresent st) := by
  unfold switchMode
  split
  · exact h
  · exact grabInv_setModeVisibility handPresent
      (grabInv_congr rfl rfl rfl (grabInv_drop (grabInv_congr rfl rfl rfl h)))

/-- The operations C1 quantifies over: one secondary-hand detection-frame
update, a bare hit-test attempt, a bare release, and a mode switch. -/
inductive Op where
  | frame (env : Env) (lm? : Option Hand)
  | grabAttempt (env : Env) (l : Hand)
  | release
  | modeSwitch (mode : String) (handPresent : Bool)

/-- Run one operation on the state. -/
def applyOp (st : SysState) (o : Op) : SysState :=
  match o with
  | Op.frame env lm? => updateCompanionFromHand env lm? st
  | Op.grabAttempt env l => tryGrabItem env l st
  | Op.release => dropGrabbedItem st
  | Op.modeSwitch mode handPresent => switchMode mode handPresent st

theorem grabInv_applyOp (o : Op) {st : SysState} (h : GrabInv st) : GrabInv (applyOp st o) := by
  cases o with
  | frame env lm? => exact grabInv_companion env lm? h
  | grabAttempt env l => exact grabInv_tryGrab env l h
  | release => exact grabInv_drop h
  | modeSwitch mode handPresent => exact grabInv_switch mode handPresent h

theorem grabInv_foldl (ops : List Op) {st : SysState} (h : GrabInv st) :
    GrabInv (ops.foldl applyOp st) := by
  induction ops generalizing st with
  | nil => exact h
  | cons o os ih => exact ih (grabInv_applyOp o h)

theorem grabInv_of_free {st : SysState} (hitem : st.grab.item = none)
    (hp : ∀ p ∈ st.planets, p.isGrabbed = false)
    (hb : ∀ b ∈ st.butterflies, b.isGrabbed = false) : GrabInv st := by
  refine ⟨?_, ?_, ?_⟩
  · intro j p hj
    rw [hitem]
    simp only [reduceCtorEq, iff_false]
    rw [hp p (List.get?_mem hj)]
    simp
  · intro j b hj
    rw [hitem]
    simp only [reduceCtorEq, iff_false]
    rw [hb b (List.get?_mem hj)]
    simp
  · unfold itemInRange
    rw [hitem]
    trivial

theorem grabInv_implies (st : SysState) (h : GrabInv st) :
    AtMostOneGrabbed st ∧ (st.grab.item.isSome ↔ SomeGrabbed st) ∧ ItemGrabbed st := by
  obtain ⟨h1, h2, h3⟩ := h
  refine ⟨⟨?_, ?_, ?_⟩, ⟨?_, ?_⟩, ?_⟩
  · intro i j p q hi hj hpg hqg
    have e1 := (h1 i p hi).mp hpg
    have e2 := (h1 j q hj).mp hqg
    rw [e1] at e2
    simpa using congrArg Prod.snd (Option.some.inj e2)
  · intro i j b c hi hj hbg hcg
    have e1 := (h2 i b hi).mp hbg
    have e2 := (h2 j c hj).mp hcg
    rw [e1] at e2
    simpa using congrArg Prod.snd (Option.some.inj e2)
  · intro i j p b hi hj hpg hbg
    have e1 := (h1 i p hi).mp hpg
    have e2 := (h2 j b hj).mp hbg
    rw [e1] at e2
    have := congrArg Prod.fst (Option.some.inj e2)
    simp at this
  · intro hsome
    rcases hx : st.grab.item with _ | ⟨k, i⟩
    · rw [hx] at hsome; simp at hsome
    · unfold itemInRange at h3
      rw [hx] at h3
      cases k with
      | planet =>
        left
        refine ⟨i, st.planets.get ⟨i, h3⟩, List.get?_eq_get h3, ?_⟩
        exact (h1 i _ (List.get?_eq_get h3)).mpr hx
      | butterfly =>
        right
        refine ⟨i, st.butterflies.get ⟨i, h3⟩, List.get?_eq_get h3, ?_⟩
        exact (h2 i _ (List.get?_eq_get h3)).mpr hx
  · intro hsg
    rcases hsg with ⟨i, p, hi, hpg⟩ | ⟨i, b, hi, hbg⟩
    · rw [(h1 i p hi).mp hpg]; rfl
    · rw [(h2 i b hi).mp hbg]; rfl
  · intro k i hx
    constructor
    · rintro rfl
      unfold itemInRange at h3
      rw [hx] at h3
      refine ⟨st.planets.get ⟨i, h3⟩, List.get?_eq_get h3, ?_⟩
      exact (h1 i _ (List.get?_eq_get h3)).mpr hx
    · rintro rfl
      unfold itemInRange at h3
      rw [hx] at h3
      refine ⟨st.butterflies.get ⟨i, h3⟩, List.get?_eq_get h3, ?_⟩
      exact (h2 i _ (List.get?_eq_get h3)).mpr hx

/-- `grabState`'s initial value (main.js). -/
def initGrabState : GrabState :=
  { item := none, kind := none, pinchActive := false, grabPlaneZ := 0 }

/-- `galaxyControl`'s initial value (main.js, 0.012 = 3/250, 0.03 = 3/100,
0.62 = 31/50). -/
def initGalaxyControl : GalaxyControl :=
  { targetScale := 1, currentScale := 1, spinBoost := 3 / 250, depthSpeed := 3 / 100,
    colorShiftActive := false, colorHue := 31 / 50 }

/-- `flowerControl`'s initial value (main.js). -/
def initFlowerControl : FlowerControl :=
  { targetScale := 1, currentScale := 1, spinBoost := 1 / 100, variantIndex := 0,
    openPalmHeld := false, lastVariantSwitchMs := 0 }

/-- `companionControl`'s initial value (main.js). -/
def initCompanionControl : CompanionControl :=
  { tiltX := 0, tiltY := 0, motionSpeed := 1 / 100 }

/-- `skeletonControl`'s initial value (main.js, 1.15 = 23/20). -/
def initSkeletonControl : SkeletonControl :=
  { targetScale := 23 / 20, currentScale := 23 / 20, danceActive := false, spinBoost := 1 / 100 }

/-- The planets as `createSolarSystem` builds them: speeds and orbit radii
from `planetDefs`, `isGrabbed` false; the random initial angles are sampled
at 0 and the group's world Z (-3) stands in for the sampled mesh world Z. -/
def demoPlanets : List Planet :=
  [ { speed := 8 / 5, angle := 0, pivotRotY := 0, isGrabbed := false,
      meshPos := ⟨23 / 10, 0, 0⟩, worldZ := -3 },
    { speed := 6 / 5, angle := 0, pivotRotY := 0, isGrabbed := false,
      meshPos := ⟨33 / 10, 0, 0⟩, worldZ := -3 },
    { speed := 9 / 10, angle := 0, pivotRotY := 0, isGrabbed := false,
      meshPos := ⟨9 / 2, 0, 0⟩, worldZ := -3 },
    { speed := 13 / 20, angle := 0, pivotRotY := 0, isGrabbed := false,
      meshPos := ⟨31 / 5, 0, 0⟩, worldZ := -3 } ]

/-- Two butterflies as `createButterflySystem` builds them (first two
`defs` entries, random phases sampled at 0, group world Z -1.8). -/
def demoButterflies : List Butterfly :=
  [ { speed := 11 / 10, angle := 0, radius := 16 / 5, baseY := 2 / 5, bobPhase := 0,
      isGrabbed := false, pivotPos := ⟨16 / 5, 2 / 5, 0⟩, worldZ := -9 / 5 },
    { speed := 17 / 20, angle := 0, radius := 41 / 10, baseY := 11 / 10, bobPhase := 0,
      isGrabbed := false, pivotPos := ⟨41 / 10, 11 / 10, 0⟩, worldZ := -9 / 5 } ]

/-- The module state right after `init` completes: galaxy mode, all control
objects at their initial values, nothing grabbed, nothing visible yet. -/
def initState : SysState :=
  { activeMode := "galaxy", planets := demoPlanets, butterflies := demoButterflies,
    grab := initGrabState, galaxyControl := initGalaxyControl,
    flowerControl := initFlowerControl, companionControl := initCompanionControl,
    skeletonControl := initSkeletonControl,
    solarRotX := 0, solarRotY := 0, bflyRotX := 0, bflyRotY := 0,
    galaxyVisible := false, solarVisible := false, flowerVisible := false,
    butterflyVisible := false, skeletonVisible := false }

/-- A reachable-shape state in galaxy mode with planet 0 grabbed mid-pinch. -/
def grabbedState : SysState :=
  { initState with
    planets := modifyAt (fun p => { p with isGrabbed := true }) 0 demoPlanets,
    grab := { item := some (GrabKind.planet, 0), kind := some GrabKind.planet,
              pinchActive := true, grabPlaneZ := -3 },
    galaxyVisible := true, solarVisible := true }

/-- A sample environment: the camera ray query of the perspective camera at
z = 18 and a raycaster whose nearest hit is the first candidate mesh;
world-to-local maps sampled as the identity. -/
def demoEnv : Env :=
  { hitOf := fun _ => some 0,
    rayOf := fun ndc => { origin := ⟨0, 0, 18⟩, dir := ⟨ndc.1, ndc.2, -1⟩ },
    toLocalPlanet := fun _ v => v,
    toLocalButterfly := fun v => v }

/-- A secondary hand holding a pinch: wrist, thumb tip and index tip all at
the image centre (thumb-index distance 0 < 0.05). -/
def demoPinchHand : Hand :=
  [some ⟨1 / 2, 1 / 2, 0⟩, none, none, none, some ⟨1 / 2, 1 / 2, 0⟩,
   none, none, none, some ⟨1 / 2, 1 / 2, 0⟩]

/-- C1: Grab exclusivity invariant: from any state in which nothing is
grabbed, every sequence of detection-frame updates
(`updateCompanionFromHand` / `tryGrabItem` / `dropGrabbedItem`) and mode
switches preserves `GrabInv`; `GrabInv` entails that at most one world
object has `isGrabbed = true`, that `grabState.item` is non-null iff some
object's flag is set, and that the flagged object is `grabState.item`
itself; moreover a pinch rising edge while an item is already grabbed
leaves the state (in particular `grabState.item`) unchanged. -/
theorem c1_grab_exclusive :
    (∀ st : SysState, st.grab.item = none →
        (∀ p ∈ st.planets, p.isGrabbed = false) →
        (∀ b ∈ st.butterflies, b.isGrabbed = false) → GrabInv st)
    ∧ (∀ (ops : List Op) (st : SysState), GrabInv st → GrabInv (ops.foldl applyOp st))
    ∧ (∀ st : SysState, GrabInv st →
        AtMostOneGrabbed st ∧ (st.grab.item.isSome ↔ SomeGrabbed st) ∧ ItemGrabbed st)
    ∧ (∀ (env : Env) (l : Hand) (st : SysState),
        st.grab.item.isSome → tryGrabItem env l st = st) := by
  refine ⟨?_, ?_, grabInv_implies, ?_⟩
  · intro st h1 h2 h3
    exact grabInv_of_free h1 h2 h3
  · intro ops st h
    exact grabInv_foldl ops h
  · intro env l st hsome
    unfold tryGrabItem
    split
    · rfl
    · rw [if_pos hsome]

theorem c1_witness :
    GrabInv ([Op.grabAttempt demoEnv demoPinchHand, Op.frame demoEnv (some demoPinchHand),
        Op.release, Op.modeSwitch "flower" true].foldl applyOp initState)
    ∧ AtMostOneGrabbed initState := by
  constructor
  · exact c1_grab_exclusive.2.1 _ initState
      (c1_grab_exclusive.1 initState (by decide) (by decide) (by decide))
  · exact (c1_grab_exclusive.2.2.1 initState
      (c1_grab_exclusive.1 initState (by decide) (by decide) (by decide))).1

/-- The `isGrabbed` flag of the object a grab reference points at (false
when the reference is dangling). -/
def refFlag (st : SysState) (r : GrabKind × Nat) : Bool :=
  match r with
  | (GrabKind.planet, i) => ((st.planets.get? i).map (fun p => p.isGrabbed)).getD false
  | (GrabKind.butterfly, i) => ((st.butterflies.get? i).map (fun b => b.isGrabbed)).getD false

theorem drop_item_none (st : SysState) : (dropGrabbedItem st).grab.item = none := by
  rcases h : st.grab.item with _ | ⟨k, i⟩
  · simp [dropGrabbedItem, h]
  · cases k <;> simp [dropGrabbedItem, h]

theorem dropGrabbedItem_proj (st : SysState) :
    (dropGrabbedItem st).grab.pinchActive = st.grab.pinchActive
    ∧ (dropGrabbedItem st).activeMode = st.activeMode
    ∧ (dropGrabbedItem st).galaxyControl = st.galaxyControl
    ∧ (dropGrabbedItem st).flowerControl = st.flowerControl
    ∧ (dropGrabbedItem st).companionControl = st.companionControl
    ∧ (dropGrabbedItem st).skeletonControl = st.skeletonControl := by
  rcases h : st.grab.item with _ | ⟨k, i⟩
  · simp [dropGrabbedItem, h]
  · cases k <;> simp [dropGrabbedItem, h]

theorem refFlag_drop (st : SysState) (r : GrabKind × Nat) (h : st.grab.item = some r) :
    refFlag (dropGrabbedItem st) r = false := by
  rcases r with ⟨k, i⟩
  cases k
  · simp only [dropGrabbedItem, h, refFlag, get?_modifyAt, if_pos rfl]
    cases st.planets.get? i <;> simp
  · simp only [dropGrabbedItem, h, refFlag, get?_modifyAt, if_pos rfl]
    cases st.butterflies.get? i <;> simp

theorem switchMode_eq (mode : String) (handPresent : Bool) (st : SysState)
    (hne : mode ≠ st.activeMode) :
    switchMode mode handPresent st =
      setModeVisibility handPresent
        { dropGrabbedItem { st with activeMode := mode } with
          grab := { (dropGrabbedItem { st with activeMode := mode }).grab with
            pinchActive := false },
          flowerControl := { (dropGrabbedItem { st with activeMode := mode }).flowerControl with
            openPalmHeld := false },
          skeletonControl := { (dropGrabbedItem { st with activeMode := mode }).skeletonControl with
            danceActive := false } } := by
  unfold switchMode
  rw [if_neg hne]

/-- C3: switching modes with an active grab (to a different valid mode)
nulls `grabState.item`, clears the previously grabbed object's `isGrabbed`
flag, resets the pinch-edge tracker, and clears both discrete-trigger
latches (`flowerControl.openPalmHeld`, `skeletonControl.danceActive`). -/
theorem c3_mode_switch_resets (st : SysState) (mode : String) (handPresent : Bool)
    (r : GrabKind × Nat)
    (_hvalid : mode = "galaxy" ∨ mode = "flower" ∨ mode = "skeleton")
    (hne : mode ≠ st.activeMode)
    (hgrab : st.grab.item = some r) :
    (switchMode mode handPresent st).grab.item = none
    ∧ refFlag (switchMode mode handPresent st) r = false
    ∧ (switchMode mode handPresent st).grab.pinchActive = false
    ∧ (switchMode mode handPresent st).flowerControl.openPalmHeld = false
    ∧ (switchMode mode handPresent st).skeletonControl.danceActive = false := by
  rw [switchMode_eq mode handPresent st hne]
  dsimp only [setModeVisibility]
  refine ⟨drop_item_none _, ?_, rfl, rfl, rfl⟩
  have hflag : refFlag (dropGrabbedItem { st with activeMode := mode }) r = false :=
    refFlag_drop _ r hgrab
  rcases r with ⟨k, i⟩
  cases k
  · exact hflag
  · exact hflag

theorem c3_witness :
    (switchMode "flower" true grabbedState).grab.item = none
    ∧ refFlag (switchMode "flower" true grabbedState) (GrabKind.planet, 0) = false
    ∧ (switchMode "flower" true grabbedState).grab.pinchActive = false
    ∧ (switchMode "flower" true grabbedState).flowerControl.openPalmHeld = false
    ∧ (switchMode "flower" true grabbedState).skeletonControl.danceActive = false :=
  c3_mode_switch_resets grabbedState "flower" true (GrabKind.planet, 0)
    (Or.inr (Or.inl rfl)) (by decide) (by decide)

/-- C4 counterexample: `switchMode` performs no validity check, so passing
the unknown name "plasma" does not keep the current mode: the active mode
becomes "plasma" and the grab state is reset, refuting "rejected as a
no-op: the active mode is retained and no state changes". -/
theorem c4_counterexample :
    (switchMode "plasma" true grabbedState).activeMode = "plasma"
    ∧ grabbedState.activeMode = "galaxy"
    ∧ grabbedState.grab.item = some (GrabKind.planet, 0)
    ∧ (switchMode "plasma" true grabbedState).grab.item = none :=
  ⟨rfl, rfl, rfl, rfl⟩

/-- C4 (amended): `switchMode` validates nothing; only re-selecting the
currently active mode is a no-op. Any other name — valid or not — runs the
full transition: the active mode becomes that name, the grab is released,
the pinch tracker and latches clear, and under a name that is none of
galaxy/flower/skeleton every world's visibility goes false. -/
theorem c4_invalid_mode_transition :
    (∀ (st : SysState) (handPresent : Bool), switchMode st.activeMode handPresent st = st)
    ∧ (∀ (st : SysState) (mode : String) (handPresent : Bool), mode ≠ st.activeMode →
        mode ≠ "galaxy" → mode ≠ "flower" → mode ≠ "skeleton" →
        (switchMode mode handPresent st).activeMode = mode
        ∧ (switchMode mode handPresent st).grab.item = none
        ∧ (switchMode mode handPresent st).grab.pinchActive = false
        ∧ (switchMode mode handPresent st).flowerControl.openPalmHeld = false
        ∧ (switchMode mode handPresent st).skeletonControl.danceActive = false
        ∧ (switchMode mode handPresent st).galaxyVisible = false
        ∧ (switchMode mode handPresent st).solarVisible = false
        ∧ (switchMode mode handPresent st).flowerVisible = false
        ∧ (switchMode mode handPresent st).butterflyVisible = false
        ∧ (switchMode mode handPresent st).skeletonVisible = false) := by
  constructor
  · intro st handPresent
    unfold switchMode
    rw [if_pos rfl]
  · intro st mode handPresent hne hg hf hs
    rw [switchMode_eq mode handPresent st hne]
    dsimp only [setModeVisibility]
    have hmode : (dropGrabbedItem { st with activeMode := mode }).activeMode = mode :=
      (dropGrabbedItem_proj _).2.1
    refine ⟨hmode, drop_item_none _, rfl, rfl, rfl, ?_, ?_, ?_, ?_, ?_⟩ <;>
      simp [hmode, hg, hf, hs]

theorem c4_witness :
    switchMode grabbedState.activeMode false grabbedState = grabbedState
    ∧ (switchMode "plasma" true grabbedState).activeMode = "plasma" := by
  constructor
  · exact c4_invalid_mode_transition.1 grabbedState false
  · exact (c4_invalid_mode_transition.2 grabbedState "plasma" true
      (by decide) (by decide) (by decide) (by decide)).1

/-- A state whose smoothed continuous parameters have drifted away from
their neutral initial values (galaxy scale pulled to 1.7 by a held pinch,
companion motion speed boosted to 0.04 by a fist). -/
def driftState : SysState :=
  { initState with
    galaxyControl := { initGalaxyControl with targetScale := 17 / 10, currentScale := 17 / 10 },
    companionControl := { initCompanionControl with tiltX := 1 / 2, motionSpeed := 1 / 25 } }

/-- C5 counterexample: switching galaxy → flower leaves every continuous
control parameter exactly as it was (1.7 galaxy scale, 0.04 motion speed —
both away from their neutral initial values 1 and 0.01), refuting "resets
the Continuous Control State on transition". -/
theorem c5_counterexample :
    driftState.activeMode = "galaxy"
    ∧ driftState.galaxyControl.currentScale = 17 / 10
    ∧ (switchMode "flower" true driftState).galaxyControl.currentScale = 17 / 10
    ∧ driftState.companionControl.motionSpeed = 1 / 25
    ∧ (switchMode "flower" true driftState).companionControl.motionSpeed = 1 / 25
    ∧ initGalaxyControl.currentScale = 1
    ∧ initCompanionControl.motionSpeed = 1 / 100 :=
  ⟨rfl, rfl, rfl, rfl, rfl, rfl, rfl⟩

/-- C5 (amended): on a mode transition `switchMode` resets only the
Grab/Drag Controller (item dropped, pinch tracker cleared) and the two
discrete-trigger latches; the continuous smoothed parameter sets
(`galaxyControl`, `companionControl`, and all fields of `flowerControl` /
`skeletonControl` other than their latches) are retained unchanged. -/
theorem c5_switch_retains_continuous (st : SysState) (mode : String) (handPresent : Bool)
    (hne : mode ≠ st.activeMode) :
    (switchMode mode handPresent st).galaxyControl = st.galaxyControl
    ∧ (switchMode mode handPresent st).companionControl = st.companionControl
    ∧ (switchMode mode handPresent st).flowerControl
        = { st.flowerControl with openPalmHeld := false }
    ∧ (switchMode mode handPresent st).skeletonControl
        = { st.skeletonControl with danceActive := false }
    ∧ (switchMode mode handPresent st).grab.item = none := by
  rw [switchMode_eq mode handPresent st hne]
  dsimp only [setModeVisibility]
  obtain ⟨-, -, hgal, hflo, hcomp, hskel⟩ := dropGrabbedItem_proj { st with activeMode := mode }
  refine ⟨hgal, hcomp, ?_, ?_, drop_item_none _⟩
  · rw [hflo]
  · rw [hskel]

theorem c5_witness :
    (switchMode "flower" true driftState).galaxyControl = driftState.galaxyControl
    ∧ (switchMode "flower" true driftState).companionControl = driftState.companionControl :=
  ⟨(c5_switch_retains_continuous driftState "flower" true (by decide)).1,
   (c5_switch_retains_continuous driftState "flower" true (by decide)).2.1⟩

theorem sqrt_ratCast_lt_iff {q c : ℚ} (hc : 0 < c) :
    Real.sqrt ((q : ℝ)) < (c : ℝ) ↔ q < c ^ 2 := by
  rw [Real.sqrt_lt' (by exact_mod_cast hc)]
  constructor <;> intro h <;> exact_mod_cast h

/-- C2: with thumb tip (landmark 4) and index tip (landmark 8) both
present, `isPinch` is true iff the 3-D Euclidean distance between them is
strictly below 0.05; consequently at distance exactly 0.05 (or larger) it
is false. -/
theorem c2_isPinch_threshold (l : Hand) (thumb indexTip : Pt)
    (h4 : lmAt l 4 = some thumb) (h8 : lmAt l 8 = some indexTip) :
    (isPinch l = true ↔ Real.sqrt ((distSq thumb indexTip : ℚ) : ℝ) < 1 / 20)
    ∧ ((1 / 20 : ℝ) ≤ Real.sqrt ((distSq thumb indexTip : ℚ) : ℝ) → isPinch l = false) := by
  have hbridge : Real.sqrt ((distSq thumb indexTip : ℚ) : ℝ) < (1 / 20 : ℝ)
      ↔ distSq thumb indexTip < 1 / 400 := by
    rw [show (1 / 20 : ℝ) = ((1 / 20 : ℚ) : ℝ) by norm_num,
      sqrt_ratCast_lt_iff (by norm_num)]
    norm_num
  have hiff : isPinch l = true ↔ distSq thumb indexTip < 1 / 400 := by
    simp [isPinch, h4, h8]
  refine ⟨hiff.trans hbridge.symm, ?_⟩
  intro hle
  cases hb : isPinch l with
  | false => rfl
  | true => exact absurd ((hiff.trans hbridge.symm).mp hb) (not_lt.mpr hle)

/-- A hand whose thumb-index distance is exactly the 0.05 threshold. -/
def demoBoundaryHand : Hand :=
  [none, none, none, none, some ⟨0, 0, 0⟩, none, none, none, some ⟨1 / 20, 0, 0⟩]

theorem c2_witness : isPinch demoBoundaryHand = false :=
  (c2_isPinch_threshold demoBoundaryHand ⟨0, 0, 0⟩ ⟨1 / 20, 0, 0⟩ rfl rfl).2 (by
    rw [show (distSq ⟨0, 0, 0⟩ ⟨1 / 20, 0, 0⟩ : ℚ) = 1 / 400 by norm_num [distSq],
      show ((1 / 400 : ℚ) : ℝ) = (1 / 20 : ℝ) ^ 2 by norm_num,
      Real.sqrt_sq (by norm_num)])

/-- C8: with the four fingertips (8/12/16/20) and their MCP joints
(5/9/13/17) all present, `isFist` is true iff at least 3 of the 4
tip-to-MCP Euclidean distances are strictly below 0.13; with at most 2 it
is false. -/
theorem c8_isFist_majority (l : Hand) (t1 t2 t3 t4 m1 m2 m3 m4 : Pt)
    (h8 : lmAt l 8 = some t1) (h12 : lmAt l 12 = some t2)
    (h16 : lmAt l 16 = some t3) (h20 : lmAt l 20 = some t4)
    (h5 : lmAt l 5 = some m1) (h9 : lmAt l 9 = some m2)
    (h13 : lmAt l 13 = some m3) (h17 : lmAt l 17 = some m4) :
    (isFist l = true ↔
      3 ≤ (if Real.sqrt ((distSq t1 m1 : ℚ) : ℝ) < 13 / 100 then (1 : ℕ) else 0)
        + (if Real.sqrt ((distSq t2 m2 : ℚ) : ℝ) < 13 / 100 then (1 : ℕ) else 0)
        + (if Real.sqrt ((distSq t3 m3 : ℚ) : ℝ) < 13 / 100 then (1 : ℕ) else 0)
        + (if Real.sqrt ((distSq t4 m4 : ℚ) : ℝ) < 13 / 100 then (1 : ℕ) else 0))
    ∧ ((if Real.sqrt ((distSq t1 m1 : ℚ) : ℝ) < 13 / 100 then (1 : ℕ) else 0)
        + (if Real.sqrt ((distSq t2 m2 : ℚ) : ℝ) < 13 / 100 then (1 : ℕ) else 0)
        + (if Real.sqrt ((distSq t3 m3 : ℚ) : ℝ) < 13 / 100 then (1 : ℕ) else 0)
        + (if Real.sqrt ((distSq t4 m4 : ℚ) : ℝ) < 13 / 100 then (1 : ℕ) else 0) ≤ 2 →
        isFist l = false) := by
  have b1 : (Real.sqrt ((distSq t1 m1 : ℚ) : ℝ) < 13 / 100) ↔ distSq t1 m1 < 169 / 10000 := by
    rw [show (13 / 100 : ℝ) = ((13 / 100 : ℚ) : ℝ) by norm_num,
      sqrt_ratCast_lt_iff (by norm_num)]
    norm_num
  have b2 : (Real.sqrt ((distSq t2 m2 : ℚ) : ℝ) < 13 / 100) ↔ distSq t2 m2 < 169 / 10000 := by
    rw [show (13 / 100 : ℝ) = ((13 / 100 : ℚ) : ℝ) by norm_num,
      sqrt_ratCast_lt_iff (by norm_num)]
    norm_num
  have b3 : (Real.sqrt ((distSq t3 m3 : ℚ) : ℝ) < 13 / 100) ↔ distSq t3 m3 < 169 / 10000 := by
    rw [show (13 / 100 : ℝ) = ((13 / 100 : ℚ) : ℝ) by norm_num,
      sqrt_ratCast_lt_iff (by norm_num)]
    norm_num
  have b4 : (Real.sqrt ((distSq t4 m4 : ℚ) : ℝ) < 13 / 100) ↔ distSq t4 m4 < 169 / 10000 := by
    rw [show (13 / 100 : ℝ) = ((13 / 100 : ℚ) : ℝ) by norm_num,
      sqrt_ratCast_lt_iff (by norm_num)]
    norm_num
  have hfold : isFist l = true ↔
      3 ≤ (if distSq t1 m1 < 169 / 10000 then (1 : ℕ) else 0)
        + (if distSq t2 m2 < 169 / 10000 then (1 : ℕ) else 0)
        + (if distSq t3 m3 < 169 / 10000 then (1 : ℕ) else 0)
        + (if distSq t4 m4 < 169 / 10000 then (1 : ℕ) else 0) := by
    simp only [isFist, fistPairs, List.foldl_cons, List.foldl_nil,
      h8, h12, h16, h20, h5, h9, h13, h17, decide_eq_true_eq]
    by_cases c1 : distSq t1 m1 < 169 / 10000 <;>
      by_cases c2 : distSq t2 m2 < 169 / 10000 <;>
      by_cases c3 : distSq t3 m3 < 169 / 10000 <;>
      by_cases c4 : distSq t4 m4 < 169 / 10000 <;>
      simp [c1, c2, c3, c4]
  have hmain :
      (3 ≤ (if Real.sqrt ((distSq t1 m1 : ℚ) : ℝ) < 13 / 100 then (1 : ℕ) else 0)
        + (if Real.sqrt ((distSq t2 m2 : ℚ) : ℝ) < 13 / 100 then (1 : ℕ) else 0)
        + (if Real.sqrt ((distSq t3 m3 : ℚ) : ℝ) < 13 / 100 then (1 : ℕ) else 0)
        + (if Real.sqrt ((distSq t4 m4 : ℚ) : ℝ) < 13 / 100 then (1 : ℕ) else 0))
      ↔ (3 ≤ (if distSq t1 m1 < 169 / 10000 then (1 : ℕ) else 0)
        + (if distSq t2 m2 < 169 / 10000 then (1 : ℕ) else 0)
        + (if distSq t3 m3 < 169 / 10000 then (1 : ℕ) else 0)
        + (if distSq t4 m4 < 169 / 10000 then (1 : ℕ) else 0)) := by
    by_cases c1 : distSq t1 m1 < 169 / 10000 <;>
      by_cases c2 : distSq t2 m2 < 169 / 10000 <;>
      by_cases c3 : distSq t3 m3 < 169 / 10000 <;>
      by_cases c4 : distSq t4 m4 < 169 / 10000 <;>
      simp [b1, b2, b3, b4, c1, c2, c3, c4]
  refine ⟨hfold.trans hmain.symm, ?_⟩
  intro hle
  cases hb : isFist l with
  | false => rfl
  | true =>
    have h3 := hmain.mpr (hfold.mp hb)
    omega

/-- A hand with all 21 landmarks at the image centre: every curl distance
is 0, so all four fingers count as curled. -/
def demoFistHand : Hand := List.replicate 21 (some ⟨0, 0, 0⟩)

theorem c8_witness : isFist demoFistHand = true := by
  have h := c8_isFist_majority demoFistHand ⟨0, 0, 0⟩ ⟨0, 0, 0⟩ ⟨0, 0, 0⟩ ⟨0, 0, 0⟩
    ⟨0, 0, 0⟩ ⟨0, 0, 0⟩ ⟨0, 0, 0⟩ ⟨0, 0, 0⟩ rfl rfl rfl rfl rfl rfl rfl rfl
  apply h.1.mpr
  have hzero : Real.sqrt ((distSq (⟨0, 0, 0⟩ : Pt) ⟨0, 0, 0⟩ : ℚ) : ℝ) < 13 / 100 := by
    rw [show (distSq (⟨0, 0, 0⟩ : Pt) ⟨0, 0, 0⟩ : ℚ) = 0 by norm_num [distSq],
      Rat.cast_zero, Real.sqrt_zero]
    norm_num
  simp [hzero]

theorem smoothIter_sub (f target c0 : ℝ) :
    ∀ n, smoothIter f target c0 n - target = (c0 - target) * (1 - f) ^ n := by
  intro n
  induction n with
  | zero => simp [smoothIter]
  | succ m ih =>
    have hstep : smoothIter f target c0 (m + 1) - target
        = (smoothIter f target c0 m - target) * (1 - f) := by
      simp only [smoothIter, settle]
      ring
    rw [hstep, ih]
    ring

/-- C6: for every smoothing factor in (0,1), every constant target, every
start value and every positive epsilon, iterating the exponential-approach
update `settle` brings the current value within epsilon of the target from
some frame count on. -/
theorem c6_smoothing_convergence (f target c0 eps : ℝ)
    (hf0 : 0 < f) (hf1 : f < 1) (heps : 0 < eps) :
    ∃ N : ℕ, ∀ n, N ≤ n → |smoothIter f target c0 n - target| < eps := by
  by_cases hgap : c0 - target = 0
  · refine ⟨0, fun n _ => ?_⟩
    rw [smoothIter_sub, hgap, zero_mul, abs_zero]
    exact heps
  · have hgap0 : 0 < |c0 - target| := abs_pos.mpr hgap
    obtain ⟨N, hN⟩ := exists_pow_lt_of_lt_one (div_pos heps hgap0)
      (show (1 : ℝ) - f < 1 by linarith)
    refine ⟨N, fun n hn => ?_⟩
    rw [smoothIter_sub, abs_mul, abs_pow]
    have h1f0 : (0 : ℝ) ≤ 1 - f := by linarith
    rw [abs_of_nonneg h1f0]
    have hmono : (1 - f) ^ n ≤ (1 - f) ^ N :=
      pow_le_pow_of_le_one h1f0 (by linarith) hn
    calc |c0 - target| * (1 - f) ^ n
        ≤ |c0 - target| * (1 - f) ^ N :=
          mul_le_mul_of_nonneg_left hmono (le_of_lt hgap0)
      _ < |c0 - target| * (eps / |c0 - target|) :=
          mul_lt_mul_of_pos_left hN hgap0
      _ = eps := by field_simp

theorem c6_witness :
    ∃ N : ℕ, ∀ n, N ≤ n → |smoothIter (14 / 100) (17 / 10) 1 n - 17 / 10| < 1 / 1000 :=
  c6_smoothing_convergence (14 / 100) (17 / 10) 1 (1 / 1000)
    (by norm_num) (by norm_num) (by norm_num)

theorem tryGrabItem_of_isSome (env : Env) (l : Hand) {st : SysState}
    (hsome : st.grab.item.isSome) : tryGrabItem env l st = st := by
  unfold tryGrabItem
  split
  · rfl
  · rw [if_pos hsome]

theorem updateGrabbedItem_of_no_hit (env : Env) (l : Hand) (st : SysState) (ndc : ℚ × ℚ)
    (hndc : getPinchNdc l = some ndc)
    (hpar : worldPointFromNdcOnZPlane env.rayOf ndc.1 ndc.2 st.grab.grabPlaneZ = none) :
    updateGrabbedItem env l st = st := by
  unfold updateGrabbedItem
  split
  · rfl
  · simp only [hndc, hpar]

theorem companionTilt_proj (l : Hand) (st : SysState) :
    (companionTilt l st).planets = st.planets
    ∧ (companionTilt l st).butterflies = st.butterflies
    ∧ (companionTilt l st).grab = st.grab := by
  unfold companionTilt
  split <;> exact ⟨rfl, rfl, rfl⟩

/-- C7: while an object is grabbed and pinch stays true, a frame whose
camera ray is parallel to the grab plane (`worldPointFromNdcOnZPlane`
returns none) performs no position write: `updateGrabbedItem` returns the
state unchanged, and the full `updateCompanionFromHand` frame leaves
`grabState.item` and both world-object arrays (hence the grabbed object's
position) exactly as in the previous frame. -/
theorem c7_parallel_ray_skip (env : Env) (l : Hand) (st : SysState)
    (ndc : ℚ × ℚ) (r : GrabKind × Nat)
    (hndc : getPinchNdc l = some ndc)
    (hpar : worldPointFromNdcOnZPlane env.rayOf ndc.1 ndc.2 st.grab.grabPlaneZ = none)
    (hitem : st.grab.item = some r)
    (hpinch : isPinch l = true)
    (hmode : st.activeMode ≠ "skeleton") :
    updateGrabbedItem env l st = st
    ∧ (updateCompanionFromHand env (some l) st).grab.item = some r
    ∧ (updateCompanionFromHand env (some l) st).planets = st.planets
    ∧ (updateCompanionFromHand env (some l) st).butterflies = st.butterflies := by
  obtain ⟨htp, htb, htg⟩ := companionTilt_proj l st
  have h1p : (companionMotion l (companionTilt l st)).planets = st.planets := htp
  have h1b : (companionMotion l (companionTilt l st)).butterflies = st.butterflies := htb
  have h1g : (companionMotion l (companionTilt l st)).grab = st.grab := htg
  have hsome1 : (companionMotion l (companionTilt l st)).grab.item.isSome := by
    rw [h1g, hitem]; rfl
  have h2 : (if isPinch l && !st.grab.pinchActive
      then tryGrabItem env l (companionMotion l (companionTilt l st))
      else companionMotion l (companionTilt l st))
      = companionMotion l (companionTilt l st) := by
    split
    · exact tryGrabItem_of_isSome env l hsome1
    · rfl
  have hpar1 : worldPointFromNdcOnZPlane env.rayOf ndc.1 ndc.2
      (companionMotion l (companionTilt l st)).grab.grabPlaneZ = none := by
    rw [h1g]; exact hpar
  have h3 : updateGrabbedItem env l (companionMotion l (companionTilt l st))
      = companionMotion l (companionTilt l st) :=
    updateGrabbedItem_of_no_hit env l _ ndc hndc hpar1
  have hframe : updateCompanionFromHand env (some l) st
      = setPinch (isPinch l) (companionMotion l (companionTilt l st)) := by
    unfold updateCompanionFromHand
    rw [if_neg hmode]
    dsimp only
    rw [h2, hpinch]
    simp only [Bool.not_true, Bool.false_and, Bool.false_eq_true, if_false, if_true, h3]
  refine ⟨updateGrabbedItem_of_no_hit env l st ndc hndc hpar, ?_, ?_, ?_⟩
  · rw [hframe]
    show (companionMotion l (companionTilt l st)).grab.item = some r
    rw [h1g, hitem]
  · rw [hframe]
    exact h1p
  · rw [hframe]
    exact h1b

/-- A parallel-ray environment: every camera ray runs inside a constant-Z
plane away from the grab plane, so the plane intersection always misses. -/
def parallelEnv : Env :=
  { hitOf := fun _ => none,
    rayOf := fun _ => { origin := ⟨0, 0, 18⟩, dir := ⟨1, 0, 0⟩ },
    toLocalPlanet := fun _ v => v,
    toLocalButterfly := fun v => v }

theorem c7_witness :
    updateGrabbedItem parallelEnv demoPinchHand grabbedState = grabbedState
    ∧ (updateCompanionFromHand parallelEnv (some demoPinchHand) grabbedState).grab.item
        = some (GrabKind.planet, 0)
    ∧ (updateCompanionFromHand parallelEnv (some demoPinchHand) grabbedState).planets
        = grabbedState.planets := by
  have hndc : getPinchNdc demoPinchHand = some (0, 0) := by
    norm_num [getPinchNdc, demoPinchHand, lmAt]
  have hpar : worldPointFromNdcOnZPlane parallelEnv.rayOf (0, 0).1 (0, 0).2
      grabbedState.grab.grabPlaneZ = none := by
    norm_num [worldPointFromNdcOnZPlane, rayIntersectZPlane, parallelEnv, grabbedState]
  have hpinch : isPinch demoPinchHand = true := by
    norm_num [isPinch, demoPinchHand, lmAt, distSq]
  have h := c7_parallel_ray_skip parallelEnv demoPinchHand grabbedState
    (0, 0) (GrabKind.planet, 0) hndc hpar rfl hpinch (by decide)
  exact ⟨h.1, h.2.1, h.2.2.1⟩

/-- C9 (amended): while its system is visible, a grabbed companion's
orbital angle is frozen for the frame (a grabbed planet's whole record is
untouched; a grabbed butterfly keeps its angle); an ungrabbed planet's
angle advances by `speed * motionSpeed`, and an ungrabbed butterfly's by
`speed * motionSpeed * 0.55`. -/
theorem c9_orbital_freeze (st : SysState) (i : Nat) :
    (∀ p, st.planets.get? i = some p → p.isGrabbed = true →
        (animatePlanets st).planets.get? i = some p)
    ∧ (∀ p, st.solarVisible = true → st.planets.get? i = some p → p.isGrabbed = false →
        ((animatePlanets st).planets.get? i).map (fun q => q.angle)
          = some (p.angle + p.speed * st.companionControl.motionSpeed))
    ∧ (∀ t b, st.butterflies.get? i = some b → b.isGrabbed = true →
        ((animateButterflies t st).butterflies.get? i).map (fun c => c.angle) = some b.angle)
    ∧ (∀ t b, st.butterflyVisible = true → st.butterflies.get? i = some b →
        b.isGrabbed = false →
        ((animateButterflies t st).butterflies.get? i).map (fun c => c.angle)
          = some (b.angle + b.speed * st.companionControl.motionSpeed * (11 / 20))) := by
  refine ⟨?_, ?_, ?_, ?_⟩
  · intro p hp hg
    unfold animatePlanets
    split
    · exact hp
    · dsimp only
      rw [List.get?_map, hp]
      simp [hg]
  · intro p hv hp hg
    unfold animatePlanets
    split
    · next hcond => rw [hv] at hcond; exact Bool.noConfusion hcond
    · dsimp only
      rw [List.get?_map, hp]
      simp [hg]
  · intro t b hb hg
    unfold animateButterflies
    split
    · rw [hb]; rfl
    · dsimp only
      rw [List.get?_map, hb]
      simp [hg]
  · intro t b hv hb hg
    unfold animateButterflies
    split
    · next hcond => rw [hv] at hcond; exact Bool.noConfusion hcond
    · dsimp only
      rw [List.get?_map, hb]
      simp [hg]

/-- One ungrabbed butterfly with speed 1 (so the claimed advancement would
be exactly `motionSpeed`). -/
def demoFreeButterfly : Butterfly :=
  { speed := 1, angle := 0, radius := 16 / 5, baseY := 2 / 5, bobPhase := 0,
    isGrabbed := false, pivotPos := ⟨16 / 5, 2 / 5, 0⟩, worldZ := -9 / 5 }

/-- Flower mode, butterfly system visible, fist held (motionSpeed 0.04). -/
def flutterState : SysState :=
  { initState with
    activeMode := "flower",
    butterflies := [demoFreeButterfly],
    companionControl := { initCompanionControl with motionSpeed := 1 / 25 },
    flowerVisible := true, butterflyVisible := true }

/-- C9 counterexample: one visible frame advances the ungrabbed
butterfly's angle by speed * motionSpeed * 0.55 = 0.022, not by
speed * motionSpeed = 0.04 as the claim states. -/
theorem c9_counterexample :
    ((animateButterflies 0 flutterState).butterflies.map (fun b => b.angle)) = [11 / 500]
    ∧ demoFreeButterfly.speed * flutterState.companionControl.motionSpeed = 1 / 25
    ∧ (11 / 500 : ℚ) ≠ 0 + 1 / 25 := by
  refine ⟨?_, ?_, ?_⟩
  · norm_num [animateButterflies, flutterState, demoFreeButterfly, initCompanionControl]
  · norm_num [flutterState, demoFreeButterfly, initCompanionControl]
  · norm_num

/-- The planet record of `grabbedState`'s grabbed planet 0. -/
def demoGrabbedPlanet : Planet :=
  { speed := 8 / 5, angle := 0, pivotRotY := 0, isGrabbed := true,
    meshPos := ⟨23 / 10, 0, 0⟩, worldZ := -3 }

theorem c9_witness :
    (animatePlanets grabbedState).planets.get? 0 = some demoGrabbedPlanet
    ∧ ((animateButterflies 0 flutterState).butterflies.get? 0).map (fun c => c.angle)
        = some (demoFreeButterfly.angle
            + demoFreeButterfly.speed * flutterState.companionControl.motionSpeed * (11 / 20)) :=
  ⟨(c9_orbital_freeze grabbedState 0).1 demoGrabbedPlanet rfl rfl,
   (c9_orbital_freeze flutterState 0).2.2.2 0 demoFreeButterfly rfl rfl rfl⟩

/-- Galaxy mode with the skeleton world selected instead. -/
def skeletonState : SysState :=
  { grabbedState with activeMode := "skeleton" }

/-- C10: in skeleton mode the secondary-hand update unconditionally
releases any grab and clears the pinch tracker, whatever the hand's
gestures (or its absence); `tryGrabItem` is a no-op in skeleton mode since
the candidate mesh list is empty; and grabbing does occur in galaxy mode
(a concrete pinch over planet 0 sets its reference). -/
theorem c10_skeleton_no_grab (env : Env) (lm? : Option Hand) (l : Hand) (st : SysState)
    (hmode : st.activeMode = "skeleton") :
    (updateCompanionFromHand env lm? st).grab.item = none
    ∧ (updateCompanionFromHand env lm? st).grab.pinchActive = false
    ∧ tryGrabItem env l st = st
    ∧ (tryGrabItem demoEnv demoPinchHand initState).grab.item = some (GrabKind.planet, 0) := by
  have hframe : updateCompanionFromHand env lm? st = setPinch false (dropGrabbedItem st) := by
    unfold updateCompanionFromHand
    rw [if_pos hmode]
  refine ⟨?_, ?_, ?_, ?_⟩
  · rw [hframe]
    exact drop_item_none st
  · rw [hframe]
    rfl
  · unfold tryGrabItem
    split
    · rfl
    · split
      · rfl
      · rw [hmode, if_neg (by decide), if_neg (by decide)]
  · have hndc : getPinchNdc demoPinchHand = some (0, 0) := by
      norm_num [getPinchNdc, demoPinchHand, lmAt]
    simp only [tryGrabItem, hndc]
    rfl

theorem c10_witness :
    (updateCompanionFromHand demoEnv (some demoPinchHand) skeletonState).grab.item = none
    ∧ tryGrabItem demoEnv demoPinchHand skeletonState = skeletonState :=
  have h := c10_skeleton_no_grab demoEnv (some demoPinchHand) demoPinchHand skeletonState rfl
  ⟨h.1, h.2.2.1⟩
